import Mathlib

/-!
Verification of the authorization decision engine of the company-workspace
task-management application. The definitions below are a shallow embedding of
the TypeScript source: the role and permission enums
(apps/api/src/app/enums/permission.enum.ts), the RBAC service
(RbacService in the organizations service file), the task service access
checks (apps/api/src/app/tasks/tasks.service.ts), the organization service
(apps/api/src/app/organizations/organizations.service.ts), the permissions
guard, the ownership guard and the users controller. Database repositories
are modelled as explicit lists; each distinct thrown exception site is
modelled as a distinct DenialReason value.
-/

namespace CompanyWS

/-- UserRole enum from user.entity.ts: the closed set of roles. -/
inductive UserRole where
  | OWNER
  | ADMIN
  | VIEWER
deriving DecidableEq, Repr, Fintype

/-- Permission enum from permission.enum.ts (all seventeen members,
including the unscoped task:read, task:update, task:delete tokens that no
role is granted). -/
inductive Permission where
  | TASK_CREATE
  | TASK_READ
  | TASK_READ_ALL
  | TASK_READ_OWN
  | TASK_UPDATE
  | TASK_UPDATE_ALL
  | TASK_UPDATE_OWN
  | TASK_DELETE
  | TASK_DELETE_ALL
  | TASK_DELETE_OWN
  | USER_CREATE
  | USER_READ
  | USER_UPDATE
  | USER_DELETE
  | ORG_MANAGE
  | ORG_READ
  | AUDIT_LOG_READ
deriving DecidableEq, Repr, Fintype

/-- TaskStatus enum from task.entity.ts. -/
inductive TaskStatus where
  | TODO
  | IN_PROGRESS
  | COMPLETED
deriving DecidableEq, Repr

/-- TaskPriority enum from task.entity.ts. -/
inductive TaskPriority where
  | LOW
  | MEDIUM
  | HIGH
  | URGENT
deriving DecidableEq, Repr

/-- The runtime string value of a role (TypeScript enums are erased to
their string values, and the permission table is a string-keyed object). -/
def roleKey : UserRole → String
  | .OWNER => "OWNER"
  | .ADMIN => "ADMIN"
  | .VIEWER => "VIEWER"

/-- Literal OWNER row of ROLE_PERMISSIONS in permission.enum.ts. -/
def ownerPermissionList : List Permission :=
  [ .TASK_CREATE, .TASK_READ_ALL, .TASK_READ_OWN,
    .TASK_UPDATE_ALL, .TASK_UPDATE_OWN,
    .TASK_DELETE_ALL, .TASK_DELETE_OWN,
    .USER_CREATE, .USER_READ, .USER_UPDATE, .USER_DELETE,
    .ORG_MANAGE, .ORG_READ, .AUDIT_LOG_READ ]

/-- Literal ADMIN row of ROLE_PERMISSIONS in permission.enum.ts. -/
def adminPermissionList : List Permission :=
  [ .TASK_CREATE, .TASK_READ_ALL, .TASK_READ_OWN,
    .TASK_UPDATE_ALL, .TASK_UPDATE_OWN,
    .TASK_DELETE_ALL, .TASK_DELETE_OWN,
    .USER_CREATE, .USER_READ, .USER_UPDATE,
    .ORG_READ, .AUDIT_LOG_READ ]

/-- Literal VIEWER row of ROLE_PERMISSIONS in permission.enum.ts. -/
def viewerPermissionList : List Permission :=
  [ .TASK_CREATE, .TASK_READ_OWN, .TASK_UPDATE_OWN,
    .TASK_DELETE_OWN, .ORG_READ ]

/-- ROLE_PERMISSIONS: Record<string, Permission[]>. A string-keyed object
literal; indexing with a key that is not a property yields undefined,
modelled as none. -/
def ROLE_PERMISSIONS (key : String) : Option (List Permission) :=
  if key = "OWNER" then some ownerPermissionList
  else if key = "ADMIN" then some adminPermissionList
  else if key = "VIEWER" then some viewerPermissionList
  else none

/-- RbacService.getPermissionsForRole: ROLE_PERMISSIONS[role] || [].
The fallback makes the lookup total: an unknown key silently yields the
empty permission list, no exception is thrown. -/
def getPermissionsForRole (key : String) : List Permission :=
  (ROLE_PERMISSIONS key).getD []

/-- RbacService.hasPermission: membership in the permission list of the
role. -/
def hasPermission (role : UserRole) (p : Permission) : Bool :=
  (getPermissionsForRole (roleKey role)).contains p

/-- The roleHierarchy object literal that appears (twice) inside
RbacService: OWNER maps to 3, ADMIN to 2, VIEWER to 1, anything else is
an absent property (undefined). -/
def roleHierarchy (key : String) : Option Nat :=
  if key = "OWNER" then some 3
  else if key = "ADMIN" then some 2
  else if key = "VIEWER" then some 1
  else none

/-- RbacService.getRoleLevel: roleHierarchy[role] || 0. The fallback makes
the lookup total: an unknown key silently yields level 0. -/
def getRoleLevel (key : String) : Nat :=
  (roleHierarchy key).getD 0

/-- RbacService.canManageRole: roleHierarchy[managerRole] >
roleHierarchy[targetRole]. Both arguments are drawn from the typed enum,
so both lookups are defined; the comparison is strict. -/
def canManageRole (managerRole targetRole : UserRole) : Bool :=
  (roleHierarchy (roleKey managerRole)).getD 0 >
    (roleHierarchy (roleKey targetRole)).getD 0

/-- RbacService.canAccessResource: permission possession, then a full
bypass for OWNER and ADMIN, then an ownerId comparison for everyone
else. -/
def canAccessResource (userRole : UserRole) (userId resourceOwnerId : String)
    (requiredPermission : Permission) : Bool :=
  if ¬ hasPermission userRole requiredPermission then false
  else if userRole = .OWNER ∨ userRole = .ADMIN then true
  else userId = resourceOwnerId

/-- One value per distinct exception site in the embedded services and
guards. The first five names follow the denial taxonomy of the design
document; the rest tag the remaining throw sites. -/
inductive DenialReason where
  | MissingPermission
  | CrossOrganizationAccess
  | NotOwner
  | SelfTargetForbidden
  | InsufficientHierarchy
  | NotOrgOwner
  | RoleGateFailed
  | NoOrganization
  | NotFound
  | NotAuthenticated
  | Conflict
deriving DecidableEq, Repr

deriving instance DecidableEq for Except

/-- User entity (libs/data user.entity.ts): id, email, password, role,
nullable name, nullable organizationId. The database managed createdAt
and updatedAt timestamp columns are outside this model. -/
structure User where
  id : String
  email : String
  password : String
  role : UserRole
  name : Option String
  organizationId : Option String
deriving DecidableEq, Repr

/-- Task entity (task.entity.ts): the columns that the services read or
write. ownerId and organizationId are non-nullable columns; assignedToId
is nullable. dueDate is kept as a plain string. -/
structure Task where
  id : String
  title : String
  description : Option String
  status : TaskStatus
  priority : TaskPriority
  type : Option String
  dueDate : Option String
  ownerId : String
  assignedToId : Option String
  organizationId : String
deriving DecidableEq, Repr

/-- JavaScript truthiness of a nullable string: null and the empty string
are falsy. Used where the source tests a nullable id with if (!x). -/
def truthyOrgId : Option String → Option String
  | none => none
  | some s => if s = "" then none else some s

/-- TasksService.verifyAccess: organization membership first, then an
unconditional pass for OWNER and ADMIN, then the ownership or assignment
test, and the permission possession check last (reached only by roles
below ADMIN that passed the ownership test). Each throw site carries its
DenialReason tag. -/
def verifyAccess (task : Task) (user : User) (requiredPermission : Permission) :
    Except DenialReason Unit :=
  if some task.organizationId ≠ user.organizationId then
    .error .CrossOrganizationAccess
  else if user.role = .OWNER ∨ user.role = .ADMIN then
    .ok ()
  else if task.ownerId ≠ user.id ∧ task.assignedToId ≠ some user.id then
    .error .NotOwner
  else if ¬ hasPermission user.role requiredPermission then
    .error .MissingPermission
  else
    .ok ()

/-- TasksService.findAll: empty when the user has no (truthy)
organizationId, otherwise every task whose organizationId equals the
organizationId of the user, for every role. The repository is modelled as
the list of all tasks. -/
def findAllTasks (user : User) (tasks : List Task) : List Task :=
  match truthyOrgId user.organizationId with
  | none => []
  | some oid => tasks.filter (fun t => t.organizationId == oid)

/-- OrganizationsService.findOne, access part: after the organization row
is found, deny unless the user belongs to that organization or the user
role is OWNER. The OWNER disjunct is an organization-read exemption: an
OWNER is not organization-checked here. -/
def orgFindOneCheck (user : User) (id : String) : Except DenialReason Unit :=
  if user.organizationId ≠ some id ∧ user.role ≠ .OWNER then
    .error .CrossOrganizationAccess
  else
    .ok ()

/-- OrganizationsService.update, access part: findOne check first, then
deny unless the user is an OWNER whose organizationId is the target id. -/
def orgUpdateCheck (user : User) (id : String) : Except DenialReason Unit :=
  match orgFindOneCheck user id with
  | .error e => .error e
  | .ok _ =>
    if user.role ≠ .OWNER ∨ user.organizationId ≠ some id then
      .error .NotOrgOwner
    else
      .ok ()

/-- OrganizationsService.getUsers, access part: the user must belong to
the requested organization, for every role. -/
def orgGetUsersCheck (user : User) (organizationId : String) :
    Except DenialReason Unit :=
  if user.organizationId ≠ some organizationId then
    .error .CrossOrganizationAccess
  else
    .ok ()

/-- users repository find with where clause id = userId and
organizationId = organizationId. -/
def findUserInOrg (users : List User) (userId organizationId : String) :
    Option User :=
  users.find? (fun u => u.id == userId && u.organizationId == some organizationId)

/-- OrganizationsService.removeUser over the user repository modelled as a
list: the current user must be an OWNER of the organization, must not be
the target, the target must exist in the organization; the target row is
then updated to organizationId null and role VIEWER. -/
def removeUser (organizationId userId : String) (currentUser : User)
    (users : List User) : Except DenialReason (List User) :=
  if currentUser.organizationId ≠ some organizationId ∨ currentUser.role ≠ .OWNER then
    .error .NotOrgOwner
  else if userId = currentUser.id then
    .error .SelfTargetForbidden
  else
    match findUserInOrg users userId organizationId with
    | none => .error .NotFound
    | some _ =>
      .ok (users.map (fun u =>
        if u.id == userId then
          { u with organizationId := none, role := .VIEWER }
        else u))

/-- OrganizationsService.updateUserRole over the user repository modelled
as a list: the current user must be an OWNER of the organization, must
not be the target, the target must exist in the organization; the target
row is then updated to the new role. -/
def updateUserRole (organizationId userId : String) (newRole : UserRole)
    (currentUser : User) (users : List User) : Except DenialReason (List User) :=
  if currentUser.organizationId ≠ some organizationId ∨ currentUser.role ≠ .OWNER then
    .error .NotOrgOwner
  else if userId = currentUser.id then
    .error .SelfTargetForbidden
  else
    match findUserInOrg users userId organizationId with
    | none => .error .NotFound
    | some _ =>
      .ok (users.map (fun u =>
        if u.id == userId then { u with role := newRole } else u))

/-- Modelled from the spec: RolesGuard is imported by the users controller
but its source file is not under the repository sources; the repository
document BACKEND_STRUCTURE_ANALYSIS.md lists it verbatim as
requiredRoles.some(role => user.role === role), allowing when no role
metadata is present. -/
def rolesGuardCheck (requiredRoles : Option (List UserRole)) (user : User) : Bool :=
  match requiredRoles with
  | none => true
  | some roles => roles.any (fun r => user.role == r)

/-- UsersController.deleteUser: the Roles(OWNER) guard runs first; the
handler then denies self-deletion before anything else, looks the target
up, denies cross-organization deletion, and finally deletes the row. -/
def deleteUserEndpoint (userId : String) (currentUser : User)
    (users : List User) : Except DenialReason (List User) :=
  if ¬ rolesGuardCheck (some [.OWNER]) currentUser then
    .error .RoleGateFailed
  else if currentUser.id = userId then
    .error .SelfTargetForbidden
  else
    match users.find? (fun u => u.id == userId) with
    | none => .error .NotFound
    | some target =>
      if target.organizationId ≠ currentUser.organizationId then
        .error .CrossOrganizationAccess
      else
        .ok (users.filter (fun u => u.id != userId))

/-- PermissionsGuard.canActivate, access part: allow when no permission
metadata is present; otherwise the user must hold every required
permission (the guard reads the same string-keyed ROLE_PERMISSIONS
table). -/
def permissionsGuardCheck (requiredPermissions : Option (List Permission))
    (user : User) : Except DenialReason Unit :=
  match requiredPermissions with
  | none => .ok ()
  | some perms =>
    if perms.isEmpty then .ok ()
    else if ¬ perms.all (fun p => (getPermissionsForRole (roleKey user.role)).contains p) then
      .error .MissingPermission
    else
      .ok ()

/-- OwnershipGuard.canActivate over the task repository modelled as a
list: no resource id allows; OWNER and ADMIN need the task to exist and
to belong to their organization; other roles need to own or be assigned
the task, and the task must belong to their organization. -/
def ownershipGuardCheck (user : User) (resourceId : Option String)
    (tasks : List Task) : Except DenialReason Unit :=
  match resourceId with
  | none => .ok ()
  | some rid =>
    if user.role = .OWNER ∨ user.role = .ADMIN then
      match tasks.find? (fun t => t.id == rid) with
      | none => .error .NotFound
      | some task =>
        if some task.organizationId ≠ user.organizationId then
          .error .CrossOrganizationAccess
        else
          .ok ()
    else
      match tasks.find? (fun t => t.id == rid) with
      | none => .error .NotFound
      | some task =>
        if task.ownerId ≠ user.id ∧ task.assignedToId ≠ some user.id then
          .error .NotOwner
        else if some task.organizationId ≠ user.organizationId then
          .error .CrossOrganizationAccess
        else
          .ok ()

/-- CreateTaskDto from create-task.dto.ts. The declared fields are title,
description, status, priority, type, dueDate and assignedToId. The last
two fields below are not declared on the class: they model owner and
organization properties a caller could place in the raw request body,
which the object spread in TasksService.create would copy before the
service overwrites them. -/
structure CreateTaskDto where
  title : String
  description : Option String
  status : Option TaskStatus
  priority : Option TaskPriority
  type : Option String
  dueDate : Option String
  assignedToId : Option String
  ownerId : Option String
  organizationId : Option String
deriving DecidableEq, Repr

/-- TasksService.create: deny when the user organizationId is not truthy;
otherwise build the task as the spread of the dto followed by the
explicit keys ownerId = user.id and organizationId = user.organizationId,
which in JavaScript overwrite any properties of the same name coming from
the spread. Database defaults fill status and priority; the generated id
is supplied by the caller of the model. -/
def createTask (newId : String) (dto : CreateTaskDto) (user : User) :
    Except DenialReason Task :=
  match truthyOrgId user.organizationId with
  | none => .error .NoOrganization
  | some oid =>
    .ok { id := newId,
          title := dto.title,
          description := dto.description,
          status := dto.status.getD .TODO,
          priority := dto.priority.getD .MEDIUM,
          type := dto.type,
          dueDate := dto.dueDate,
          assignedToId := dto.assignedToId,
          ownerId := user.id,
          organizationId := oid }

/-- Permission members of the task family (the members of the enum whose
string value starts with task). -/
def isTaskPermission : Permission → Bool
  | .TASK_CREATE => true
  | .TASK_READ => true
  | .TASK_READ_ALL => true
  | .TASK_READ_OWN => true
  | .TASK_UPDATE => true
  | .TASK_UPDATE_ALL => true
  | .TASK_UPDATE_OWN => true
  | .TASK_DELETE => true
  | .TASK_DELETE_ALL => true
  | .TASK_DELETE_OWN => true
  | _ => false

/-- Concrete user builder for witnesses and counterexamples. -/
def mkUser (id : String) (role : UserRole) (orgId : Option String) : User :=
  { id := id, email := id ++ "@mail.test", password := "pw", role := role,
    name := none, organizationId := orgId }

/-- Concrete task builder for witnesses and counterexamples. -/
def mkTask (id ownerId orgId : String) (assignedToId : Option String) : Task :=
  { id := id, title := "task " ++ id, description := none, status := .TODO,
    priority := .MEDIUM, type := none, dueDate := none, ownerId := ownerId,
    assignedToId := assignedToId, organizationId := orgId }

/-- Five tasks in organization o1: two owned by u1, three owned by
others. -/
def tasksO1 : List Task :=
  [ mkTask "t1" "u1" "o1" none,
    mkTask "t2" "u1" "o1" none,
    mkTask "t3" "u2" "o1" none,
    mkTask "t4" "u2" "o1" none,
    mkTask "t5" "u3" "o1" none ]

/-- If the truthiness filter keeps a value, the original field held
exactly that value. -/
theorem truthyOrgId_eq_some {o : Option String} {s : String}
    (h : truthyOrgId o = some s) : o = some s := by
  cases o with
  | none => simp [truthyOrgId] at h
  | some v =>
    by_cases hv : v = ""
    · simp [truthyOrgId, hv] at h
    · simp [truthyOrgId, hv] at h
      simp [h]

/-- C7: canManageRole managerRole targetRole holds exactly when the level
of managerRole strictly exceeds the level of targetRole, with OWNER at 3,
ADMIN at 2 and VIEWER at 1; consequently no role manages itself, OWNER
manages ADMIN and VIEWER, ADMIN manages VIEWER, and VIEWER manages
nobody. -/
theorem canManage_strict_hierarchy :
    (∀ m t : UserRole,
      canManageRole m t =
        decide (getRoleLevel (roleKey m) > getRoleLevel (roleKey t))) ∧
    getRoleLevel "OWNER" = 3 ∧ getRoleLevel "ADMIN" = 2 ∧
    getRoleLevel "VIEWER" = 1 ∧
    (∀ r : UserRole, canManageRole r r = false) ∧
    canManageRole .OWNER .ADMIN = true ∧
    canManageRole .OWNER .VIEWER = true ∧
    canManageRole .ADMIN .VIEWER = true ∧
    (∀ x : UserRole, canManageRole .VIEWER x = false) := by
  decide

/-- C5: the permission table is total and non-empty on the three roles,
each row is exactly the literal table, the ADMIN row holds every task
permission granted to any role plus user:create, user:read, user:update,
org:read and audit:read, holds neither user:delete nor org:manage, and a
permission check of user:delete against an ADMIN principal denies with
MissingPermission. -/
theorem admin_permission_table_exact :
    (∀ r : UserRole, getPermissionsForRole (roleKey r) ≠ []) ∧
    (∀ p : Permission, p ∈ getPermissionsForRole "ADMIN" ↔
      p ∈ ([ .TASK_CREATE, .TASK_READ_ALL, .TASK_READ_OWN,
             .TASK_UPDATE_ALL, .TASK_UPDATE_OWN,
             .TASK_DELETE_ALL, .TASK_DELETE_OWN,
             .USER_CREATE, .USER_READ, .USER_UPDATE,
             .ORG_READ, .AUDIT_LOG_READ ] : List Permission)) ∧
    (∀ p : Permission, p ∈ getPermissionsForRole "OWNER" ↔
      p ∈ ([ .TASK_CREATE, .TASK_READ_ALL, .TASK_READ_OWN,
             .TASK_UPDATE_ALL, .TASK_UPDATE_OWN,
             .TASK_DELETE_ALL, .TASK_DELETE_OWN,
             .USER_CREATE, .USER_READ, .USER_UPDATE, .USER_DELETE,
             .ORG_MANAGE, .ORG_READ, .AUDIT_LOG_READ ] : List Permission)) ∧
    (∀ p : Permission, p ∈ getPermissionsForRole "VIEWER" ↔
      p ∈ ([ .TASK_CREATE, .TASK_READ_OWN, .TASK_UPDATE_OWN,
             .TASK_DELETE_OWN, .ORG_READ ] : List Permission)) ∧
    (∀ (r : UserRole) (p : Permission),
      p ∈ getPermissionsForRole (roleKey r) → isTaskPermission p = true →
      p ∈ getPermissionsForRole "ADMIN") ∧
    Permission.USER_DELETE ∉ getPermissionsForRole "ADMIN" ∧
    Permission.ORG_MANAGE ∉ getPermissionsForRole "ADMIN" ∧
    (∀ u : User, u.role = .ADMIN →
      permissionsGuardCheck (some [.USER_DELETE]) u = .error .MissingPermission) := by
  refine ⟨by decide, by decide, by decide, by decide, by decide, by decide, by decide, ?_⟩
  intro u hu
  simp [permissionsGuardCheck, hu, getPermissionsForRole, ROLE_PERMISSIONS, roleKey]
  decide

/-- C5 witness: the guard applied to a concrete ADMIN principal requiring
user:delete denies with MissingPermission. -/
theorem admin_permission_table_exact_witness :
    permissionsGuardCheck (some [.USER_DELETE]) (mkUser "u1" .ADMIN (some "o1")) =
      .error .MissingPermission :=
  admin_permission_table_exact.2.2.2.2.2.2.2 (mkUser "u1" .ADMIN (some "o1")) rfl

/-- C3 counterexample: at the concrete role key SUPERADMIN, which is
outside the closed role set, the permission lookup silently returns the
empty permission list and the level lookup silently returns 0; no
InvalidRoleError exists in the code and nothing is thrown. -/
theorem invalid_role_silently_empty :
    getPermissionsForRole "SUPERADMIN" = [] ∧ getRoleLevel "SUPERADMIN" = 0 := by
  constructor <;> rfl

/-- C3 amended: for every role key outside the closed set OWNER, ADMIN,
VIEWER, getPermissionsForRole silently returns the empty permission list
(so every permission test on that key is false) and getRoleLevel silently
returns 0; the lookups are total and never fail. -/
theorem invalid_role_returns_empty (key : String)
    (h1 : key ≠ "OWNER") (h2 : key ≠ "ADMIN") (h3 : key ≠ "VIEWER") :
    getPermissionsForRole key = [] ∧ getRoleLevel key = 0 ∧
    ∀ p : Permission, (getPermissionsForRole key).contains p = false := by
  have hperm : getPermissionsForRole key = [] := by
    simp [getPermissionsForRole, ROLE_PERMISSIONS, h1, h2, h3]
  refine ⟨hperm, ?_, ?_⟩
  · simp [getRoleLevel, roleHierarchy, h1, h2, h3]
  · intro p
    simp [hperm]

/-- C3 amended witness: the amended statement evaluated at the concrete
invalid key BOGUS. -/
theorem invalid_role_returns_empty_witness :
    getPermissionsForRole "BOGUS" = [] ∧ getRoleLevel "BOGUS" = 0 ∧
    ∀ p : Permission, (getPermissionsForRole "BOGUS").contains p = false :=
  invalid_role_returns_empty "BOGUS" (by decide) (by decide) (by decide)

/-- C1 counterexample: a concrete OWNER principal of organization o1
reading organization o2 passes the access check of
OrganizationsService.findOne, while the claim demands a denial with
CrossOrganizationAccess for every role. -/
theorem cross_org_owner_read_allowed :
    (mkUser "u1" .OWNER (some "o1")).organizationId = some "o1" ∧
    orgFindOneCheck (mkUser "u1" .OWNER (some "o1")) "o2" = .ok () := by
  constructor
  · rfl
  · decide

/-- C1 amended: the cross-organization boundary holds with reason
CrossOrganizationAccess for every task operation regardless of role, and
for organization reads and listings of organization users by ADMIN and
VIEWER; OrganizationsService.findOne exempts OWNER, so an OWNER may read
any organization, but cross-organization organization management is still
denied for every role. -/
theorem cross_org_boundary_amended :
    (∀ (t : Task) (u : User) (p : Permission),
      some t.organizationId ≠ u.organizationId →
      verifyAccess t u p = .error .CrossOrganizationAccess) ∧
    (∀ (u : User) (id : String), u.organizationId ≠ some id → u.role ≠ .OWNER →
      orgFindOneCheck u id = .error .CrossOrganizationAccess) ∧
    (∀ (u : User) (id : String), u.role = .OWNER →
      orgFindOneCheck u id = .ok ()) ∧
    (∀ (u : User) (id : String), u.organizationId ≠ some id →
      orgUpdateCheck u id ≠ .ok ()) ∧
    (∀ (u : User) (oid : String), u.organizationId ≠ some oid →
      orgGetUsersCheck u oid = .error .CrossOrganizationAccess) := by
  refine ⟨?_, ?_, ?_, ?_, ?_⟩
  · intro t u p h
    simp [verifyAccess, h]
  · intro u id h1 h2
    simp [orgFindOneCheck, h1, h2]
  · intro u id h
    simp [orgFindOneCheck, h]
  · intro u id h
    unfold orgUpdateCheck orgFindOneCheck
    by_cases hr : u.role = .OWNER
    · simp [hr, h]
    · simp [h, hr]
  · intro u oid h
    simp [orgGetUsersCheck, h]

/-- C1 amended witness: concrete evaluations of the amended boundary: a
VIEWER of o1 touching a task of o2 is denied with
CrossOrganizationAccess, an ADMIN of o1 reading organization o2 is denied
with CrossOrganizationAccess, and an OWNER of o1 cannot update
organization o2. -/
theorem cross_org_boundary_amended_witness :
    verifyAccess (mkTask "t9" "u9" "o2" none) (mkUser "u1" .VIEWER (some "o1"))
        .TASK_READ_OWN = .error .CrossOrganizationAccess ∧
    orgFindOneCheck (mkUser "u1" .ADMIN (some "o1")) "o2" =
      .error .CrossOrganizationAccess ∧
    orgUpdateCheck (mkUser "u1" .OWNER (some "o1")) "o2" ≠ .ok () :=
  ⟨cross_org_boundary_amended.1 (mkTask "t9" "u9" "o2" none)
      (mkUser "u1" .VIEWER (some "o1")) .TASK_READ_OWN (by decide),
   cross_org_boundary_amended.2.1 (mkUser "u1" .ADMIN (some "o1")) "o2"
      (by decide) (by decide),
   cross_org_boundary_amended.2.2.2.1 (mkUser "u1" .OWNER (some "o1")) "o2"
      (by decide)⟩

/-- C2 counterexample: over the concrete five tasks of organization o1,
two of which are owned by VIEWER u1, the task listing for u1 returns all
five tasks, not the two owned ones the claim demands. -/
theorem find_all_viewer_sees_all_org_tasks :
    findAllTasks (mkUser "u1" .VIEWER (some "o1")) tasksO1 = tasksO1 ∧
    tasksO1.length = 5 ∧
    (tasksO1.filter (fun t => t.ownerId == "u1")).length = 2 := by
  refine ⟨?_, rfl, ?_⟩ <;> decide

/-- C2 amended: the task listing is role-independent: for every principal
it returns exactly the tasks of the principal organization (and the empty
list when the principal has no truthy organization); a VIEWER therefore
sees the full organizational set in listings, ownership mattering only in
the single-task access checks. -/
theorem find_all_org_filter (u : User) (tasks : List Task) :
    (∀ r : UserRole, findAllTasks { u with role := r } tasks = findAllTasks u tasks) ∧
    (∀ t : Task, t ∈ findAllTasks u tasks ↔
      t ∈ tasks ∧ truthyOrgId u.organizationId = some t.organizationId) := by
  constructor
  · intro r
    rfl
  · intro t
    unfold findAllTasks
    cases h : truthyOrgId u.organizationId with
    | none => simp
    | some oid =>
      simp [List.mem_filter]
      intro _
      constructor
      · intro hb
        exact hb.symm
      · intro he
        exact he.symm

/-- C2 amended witness: the amended statement evaluated for the concrete
VIEWER u1 over the five tasks of o1: every task of the list is in the
listing. -/
theorem find_all_org_filter_witness :
    mkTask "t3" "u2" "o1" none ∈ findAllTasks (mkUser "u1" .VIEWER (some "o1")) tasksO1 :=
  ((find_all_org_filter (mkUser "u1" .VIEWER (some "o1")) tasksO1).2
    (mkTask "t3" "u2" "o1" none)).mpr (by decide)

/-- C4 counterexample: the permission-possession gate is not first and not
applied to every role: an ADMIN of o1 lacks user:delete yet
verifyAccess allows a same-organization request for it, and a VIEWER of
o1 lacking task:read:all on a task of o2 is denied with
CrossOrganizationAccess rather than MissingPermission. -/
theorem verify_access_skips_permission_gate :
    hasPermission .ADMIN .USER_DELETE = false ∧
    verifyAccess (mkTask "t1" "u9" "o1" none) (mkUser "u1" .ADMIN (some "o1"))
        .USER_DELETE = .ok () ∧
    hasPermission .VIEWER .TASK_READ_ALL = false ∧
    verifyAccess (mkTask "t2" "u1" "o2" none) (mkUser "u1" .VIEWER (some "o1"))
        .TASK_READ_ALL = .error .CrossOrganizationAccess := by
  refine ⟨by decide, by decide, by decide, by decide⟩

/-- C4 amended: verifyAccess short-circuits in the order
organization-scope, then a role bypass that lets OWNER and ADMIN pass without
further checks, then ownership, then permission-possession last; the
permission gate is therefore reached only by principals below ADMIN that
passed the ownership test, and a cross-organization request denies with
CrossOrganizationAccess whatever the permission. -/
theorem verify_access_gate_order :
    (∀ (t : Task) (u : User) (p : Permission),
      some t.organizationId ≠ u.organizationId →
      verifyAccess t u p = .error .CrossOrganizationAccess) ∧
    (∀ (t : Task) (u : User) (p : Permission),
      some t.organizationId = u.organizationId →
      (u.role = .OWNER ∨ u.role = .ADMIN) →
      verifyAccess t u p = .ok ()) ∧
    (∀ (t : Task) (u : User) (p : Permission),
      some t.organizationId = u.organizationId → u.role = .VIEWER →
      t.ownerId ≠ u.id → t.assignedToId ≠ some u.id →
      verifyAccess t u p = .error .NotOwner) ∧
    (∀ (t : Task) (u : User) (p : Permission),
      some t.organizationId = u.organizationId → u.role = .VIEWER →
      t.ownerId = u.id →
      verifyAccess t u p =
        (if hasPermission .VIEWER p then .ok () else .error .MissingPermission)) := by
  refine ⟨?_, ?_, ?_, ?_⟩
  · intro t u p h
    simp [verifyAccess, h]
  · intro t u p h hrole
    simp [verifyAccess, h, hrole]
  · intro t u p h hrole hown hass
    simp [verifyAccess, h, hrole, hown, hass]
  · intro t u p h hrole hown
    simp [verifyAccess, h, hrole, hown]
    cases hp : hasPermission .VIEWER p <;> simp [hp]

/-- C4 amended witness: concrete evaluations of the four gate facts: a
cross-organization OWNER request denies with CrossOrganizationAccess, a
same-organization ADMIN request for a permission ADMIN lacks is allowed,
an unrelated VIEWER is denied with NotOwner, and an owning VIEWER request
reduces to the permission test. -/
theorem verify_access_gate_order_witness :
    verifyAccess (mkTask "t1" "u1" "o2" none) (mkUser "u1" .OWNER (some "o1"))
        .ORG_MANAGE = .error .CrossOrganizationAccess ∧
    verifyAccess (mkTask "t2" "u9" "o1" none) (mkUser "u1" .ADMIN (some "o1"))
        .USER_DELETE = .ok () ∧
    verifyAccess (mkTask "t3" "u2" "o1" none) (mkUser "u1" .VIEWER (some "o1"))
        .TASK_READ_OWN = .error .NotOwner ∧
    verifyAccess (mkTask "t4" "u1" "o1" none) (mkUser "u1" .VIEWER (some "o1"))
        .TASK_READ_ALL = .error .MissingPermission :=
  ⟨verify_access_gate_order.1 (mkTask "t1" "u1" "o2" none)
      (mkUser "u1" .OWNER (some "o1")) .ORG_MANAGE (by decide),
   verify_access_gate_order.2.1 (mkTask "t2" "u9" "o1" none)
      (mkUser "u1" .ADMIN (some "o1")) .USER_DELETE (by decide) (by decide),
   verify_access_gate_order.2.2.1 (mkTask "t3" "u2" "o1" none)
      (mkUser "u1" .VIEWER (some "o1")) .TASK_READ_OWN (by decide) rfl
      (by decide) (by decide),
   by
     have h := verify_access_gate_order.2.2.2 (mkTask "t4" "u1" "o1" none)
        (mkUser "u1" .VIEWER (some "o1")) .TASK_READ_ALL (by decide) rfl rfl
     rw [h]
     decide⟩

/-- C6: each role-management operation denies whenever the actor targets
itself: role change and removal deny for every actor (with reason
SelfTargetForbidden when the actor is an organization OWNER, the only
role that reaches the self gate), and self deletion denies for every
actor, with reason SelfTargetForbidden for every OWNER actor; none of
these paths consults canManageRole, so its answer is irrelevant. -/
theorem self_target_denied :
    (∀ (orgId : String) (r : UserRole) (actor : User) (users : List User),
      ∃ e, updateUserRole orgId actor.id r actor users = .error e) ∧
    (∀ (orgId : String) (actor : User) (users : List User),
      ∃ e, removeUser orgId actor.id actor users = .error e) ∧
    (∀ (actor : User) (users : List User),
      ∃ e, deleteUserEndpoint actor.id actor users = .error e) ∧
    (∀ (orgId : String) (r : UserRole) (actor : User) (users : List User),
      actor.organizationId = some orgId → actor.role = .OWNER →
      updateUserRole orgId actor.id r actor users = .error .SelfTargetForbidden ∧
      removeUser orgId actor.id actor users = .error .SelfTargetForbidden) ∧
    (∀ (actor : User) (users : List User), actor.role = .OWNER →
      deleteUserEndpoint actor.id actor users = .error .SelfTargetForbidden) := by
  refine ⟨?_, ?_, ?_, ?_, ?_⟩
  · intro orgId r actor users
    by_cases h : actor.organizationId ≠ some orgId ∨ actor.role ≠ .OWNER
    · exact ⟨.NotOrgOwner, by simp [updateUserRole, h]⟩
    · exact ⟨.SelfTargetForbidden, by simp [updateUserRole, h]⟩
  · intro orgId actor users
    by_cases h : actor.organizationId ≠ some orgId ∨ actor.role ≠ .OWNER
    · exact ⟨.NotOrgOwner, by simp [removeUser, h]⟩
    · exact ⟨.SelfTargetForbidden, by simp [removeUser, h]⟩
  · intro actor users
    by_cases h : actor.role = .OWNER
    · exact ⟨.SelfTargetForbidden, by simp [deleteUserEndpoint, rolesGuardCheck, h]⟩
    · exact ⟨.RoleGateFailed, by simp [deleteUserEndpoint, rolesGuardCheck, h]⟩
  · intro orgId r actor users h1 h2
    constructor
    · simp [updateUserRole, h1, h2]
    · simp [removeUser, h1, h2]
  · intro actor users h
    simp [deleteUserEndpoint, rolesGuardCheck, h]

/-- C6 witness: a concrete OWNER of o1 targeting itself is denied with
SelfTargetForbidden by role change, by removal and by deletion. -/
theorem self_target_denied_witness :
    updateUserRole "o1" "u1" .ADMIN (mkUser "u1" .OWNER (some "o1"))
        [mkUser "u1" .OWNER (some "o1")] = .error .SelfTargetForbidden ∧
    removeUser "o1" "u1" (mkUser "u1" .OWNER (some "o1"))
        [mkUser "u1" .OWNER (some "o1")] = .error .SelfTargetForbidden ∧
    deleteUserEndpoint "u1" (mkUser "u1" .OWNER (some "o1"))
        [mkUser "u1" .OWNER (some "o1")] = .error .SelfTargetForbidden :=
  ⟨(self_target_denied.2.2.2.1 "o1" .ADMIN (mkUser "u1" .OWNER (some "o1"))
      [mkUser "u1" .OWNER (some "o1")] rfl rfl).1,
   (self_target_denied.2.2.2.1 "o1" .ADMIN (mkUser "u1" .OWNER (some "o1"))
      [mkUser "u1" .OWNER (some "o1")] rfl rfl).2,
   self_target_denied.2.2.2.2 (mkUser "u1" .OWNER (some "o1"))
      [mkUser "u1" .OWNER (some "o1")] rfl⟩

/-- C8: for a VIEWER principal and a task of the same organization, the
single-task access check for task:read:own allows exactly when the
principal owns the task or is assigned to it, denies with NotOwner
otherwise, and the ownership guard agrees. -/
theorem viewer_read_own_iff_owner_or_assigned (v : User) (t : Task)
    (hrole : v.role = .VIEWER)
    (horg : v.organizationId = some t.organizationId) :
    (verifyAccess t v .TASK_READ_OWN = .ok () ↔
      (t.ownerId = v.id ∨ t.assignedToId = some v.id)) ∧
    (t.ownerId ≠ v.id → t.assignedToId ≠ some v.id →
      verifyAccess t v .TASK_READ_OWN = .error .NotOwner) ∧
    (ownershipGuardCheck v (some t.id) [t] = .ok () ↔
      (t.ownerId = v.id ∨ t.assignedToId = some v.id)) := by
  have hperm : hasPermission UserRole.VIEWER Permission.TASK_READ_OWN = true := by
    decide
  refine ⟨?_, ?_, ?_⟩
  · by_cases h1 : t.ownerId = v.id
    · simp [verifyAccess, horg, hrole, hperm, h1]
    · by_cases h2 : t.assignedToId = some v.id
      · simp [verifyAccess, horg, hrole, hperm, h1, h2]
      · simp [verifyAccess, horg, hrole, hperm, h1, h2]
  · intro h1 h2
    simp [verifyAccess, horg, hrole, hperm, h1, h2]
  · by_cases h1 : t.ownerId = v.id
    · simp [ownershipGuardCheck, hrole, horg, h1, List.find?]
    · by_cases h2 : t.assignedToId = some v.id
      · simp [ownershipGuardCheck, hrole, horg, h1, h2, List.find?]
      · simp [ownershipGuardCheck, hrole, horg, h1, h2, List.find?]

/-- C8 witness: for the concrete VIEWER u1 of o1, an owned task is
allowed, an assigned task is allowed, and an unrelated task of the same
organization is denied with NotOwner. -/
theorem viewer_read_own_witness :
    verifyAccess (mkTask "t1" "u1" "o1" none) (mkUser "u1" .VIEWER (some "o1"))
        .TASK_READ_OWN = .ok () ∧
    verifyAccess (mkTask "t2" "u2" "o1" (some "u1"))
        (mkUser "u1" .VIEWER (some "o1")) .TASK_READ_OWN = .ok () ∧
    verifyAccess (mkTask "t3" "u2" "o1" none) (mkUser "u1" .VIEWER (some "o1"))
        .TASK_READ_OWN = .error .NotOwner :=
  ⟨(viewer_read_own_iff_owner_or_assigned (mkUser "u1" .VIEWER (some "o1"))
      (mkTask "t1" "u1" "o1" none) rfl rfl).1.mpr (Or.inl rfl),
   (viewer_read_own_iff_owner_or_assigned (mkUser "u1" .VIEWER (some "o1"))
      (mkTask "t2" "u2" "o1" (some "u1")) rfl rfl).1.mpr (Or.inr rfl),
   (viewer_read_own_iff_owner_or_assigned (mkUser "u1" .VIEWER (some "o1"))
      (mkTask "t3" "u2" "o1" none) rfl rfl).2.1 (by decide) (by decide)⟩

/-- A request body for task creation that tries to smuggle in a foreign
owner and organization through the spread. -/
def evilDto : CreateTaskDto :=
  { title := "x", description := none, status := none, priority := none,
    type := none, dueDate := none, assignedToId := none,
    ownerId := some "u9", organizationId := some "o9" }

/-- The task the service actually persists for evilDto submitted by u1 of
o1: owner and organization come from the principal, not the body. -/
def forcedTask : Task :=
  { id := "t1", title := "x", description := none, status := .TODO,
    priority := .MEDIUM, type := none, dueDate := none, assignedToId := none,
    ownerId := "u1", organizationId := "o1" }

/-- C9: every task the creation operation accepts has ownerId equal to the
principal id and organizationId equal to the principal organization;
creation is rejected when the principal has no truthy organization; and
the result is independent of any owner or organization value carried by
the request body, since the service overwrites both after the spread. -/
theorem create_task_forces_owner_and_org :
    (∀ (nid : String) (dto : CreateTaskDto) (u : User) (t : Task),
      createTask nid dto u = .ok t →
      t.ownerId = u.id ∧ u.organizationId = some t.organizationId) ∧
    (∀ (nid : String) (dto : CreateTaskDto) (u : User),
      truthyOrgId u.organizationId = none →
      createTask nid dto u = .error .NoOrganization) ∧
    (∀ (nid : String) (dto dto2 : CreateTaskDto) (u : User),
      dto.title = dto2.title → dto.description = dto2.description →
      dto.status = dto2.status → dto.priority = dto2.priority →
      dto.type = dto2.type → dto.dueDate = dto2.dueDate →
      dto.assignedToId = dto2.assignedToId →
      createTask nid dto u = createTask nid dto2 u) := by
  refine ⟨?_, ?_, ?_⟩
  · intro nid dto u t h
    unfold createTask at h
    cases ho : truthyOrgId u.organizationId with
    | none => simp [ho] at h
    | some oid =>
      simp [ho] at h
      constructor
      · rw [← h]
      · rw [← h]
        exact truthyOrgId_eq_some ho
  · intro nid dto u h
    simp [createTask, h]
  · intro nid dto dto2 u h1 h2 h3 h4 h5 h6 h7
    unfold createTask
    cases ho : truthyOrgId u.organizationId with
    | none => rfl
    | some oid => simp [h1, h2, h3, h4, h5, h6, h7]

/-- C9 witness: the concrete body evilDto names owner u9 and organization
o9, yet the task created for principal u1 of o1 carries owner u1 and
organization o1; a principal without an organization is rejected. -/
theorem create_task_forces_owner_and_org_witness :
    forcedTask.ownerId = (mkUser "u1" .VIEWER (some "o1")).id ∧
    (mkUser "u1" .VIEWER (some "o1")).organizationId =
      some forcedTask.organizationId :=
  create_task_forces_owner_and_org.1 "t1" evilDto
    (mkUser "u1" .VIEWER (some "o1")) forcedTask rfl

/-- C10: when removal of a user from an organization succeeds, the result
has the same number of user rows, every row other than the target is
unchanged, the target row keeps its id, email, password and name but has
organizationId null and role VIEWER whatever role it held before, and no
row outside these two shapes appears. -/
theorem remove_user_resets_target :
    ∀ (orgId targetId : String) (actor : User) (users users2 : List User),
      removeUser orgId targetId actor users = .ok users2 →
      users2.length = users.length ∧
      (∀ u ∈ users, u.id ≠ targetId → u ∈ users2) ∧
      (∀ u ∈ users, u.id = targetId →
        { u with organizationId := none, role := .VIEWER } ∈ users2) ∧
      (∀ u2 ∈ users2,
        (u2 ∈ users ∧ u2.id ≠ targetId) ∨
        ∃ u ∈ users, u.id = targetId ∧
          u2 = { u with organizationId := none, role := .VIEWER }) := by
  intro orgId targetId actor users users2 h
  unfold removeUser at h
  split at h
  · exact absurd h (by simp)
  · split at h
    · exact absurd h (by simp)
    · split at h
      · exact absurd h (by simp)
      · simp only [Except.ok.injEq] at h
        subst h
        refine ⟨List.length_map _ _, ?_, ?_, ?_⟩
        · intro u hu hne
          refine List.mem_map.mpr ⟨u, hu, ?_⟩
          simp [hne]
        · intro u hu heq
          refine List.mem_map.mpr ⟨u, hu, ?_⟩
          simp [heq]
        · intro u2 hu2
          obtain ⟨u, hu, hfu⟩ := List.mem_map.mp hu2
          by_cases hid : u.id = targetId
          · right
            refine Exists.intro u (And.intro hu (And.intro hid ?_))
            rw [← hfu]
            simp [hid]
          · left
            rw [← hfu]
            simp [hid]
            exact hu

/-- C10 witness: removing the concrete ADMIN u2 from o1 by the OWNER u1
keeps two rows, leaves u1 untouched and turns u2 into an
organization-less VIEWER with the same id, email, password and name. -/
theorem remove_user_resets_target_witness :
    ([mkUser "u1" .OWNER (some "o1"),
      { mkUser "u2" .ADMIN (some "o1") with
          organizationId := (none : Option String), role := UserRole.VIEWER }] :
        List User).length =
      ([mkUser "u1" .OWNER (some "o1"), mkUser "u2" .ADMIN (some "o1")] :
        List User).length ∧
    { mkUser "u2" .ADMIN (some "o1") with
        organizationId := (none : Option String), role := UserRole.VIEWER } ∈
      ([mkUser "u1" .OWNER (some "o1"),
        { mkUser "u2" .ADMIN (some "o1") with
            organizationId := (none : Option String), role := UserRole.VIEWER }] :
          List User) := by
  have h := remove_user_resets_target "o1" "u2" (mkUser "u1" .OWNER (some "o1"))
    [mkUser "u1" .OWNER (some "o1"), mkUser "u2" .ADMIN (some "o1")]
    [mkUser "u1" .OWNER (some "o1"),
     { mkUser "u2" .ADMIN (some "o1") with
         organizationId := (none : Option String), role := UserRole.VIEWER }]
    (by decide)
  exact ⟨h.1, h.2.2.1 (mkUser "u2" .ADMIN (some "o1")) (by simp) rfl⟩

end CompanyWS
